/-
Verification of the WiFi scan coordination and result-aggregation subsystem
of a Pico 2 W FreeRTOS firmware.

Shallow embedding of the C++ sources:
  - src/scan_msg.hpp     : AuthMode, auth_mode_from_cyw43, APInfo, ScanResult
  - src/wifi_scanner.cpp : scan_result_callback, do_scan, wifi::request_scan
  - src/led.cpp          : led::on / off / start_blink / stop_blink

Machine integers are modelled as Nat / Int.  uint16_t count never exceeds 32
(guarded by the capacity check), uint8_t auth masks are Nats restricted to
[0,256) in the theorems, so no wraparound arithmetic arises anywhere.
Stateful C++ (the LED globals, the coordinator globals) is modelled by
explicit state passing.
-/

import Mathlib

/-- Maximum SSID length per 802.11 spec (MAX_SSID_LEN in scan_msg.hpp). -/
def MAX_SSID_LEN : Nat := 32

/-- BSSID (MAC address) length (BSSID_LEN in scan_msg.hpp). -/
def BSSID_LEN : Nat := 6

/-- Maximum APs to store per scan (MAX_SCAN_RESULTS in scan_msg.hpp). -/
def MAX_SCAN_RESULTS : Nat := 32

/-- Authentication mode of a discovered AP (enum class AuthMode). -/
inductive AuthMode where
  | OPEN
  | WEP
  | WPA_PSK
  | WPA2_PSK
  | WPA_WPA2_PSK
  | WPA3_PSK
  | UNKNOWN
deriving DecidableEq, Repr

/-- Embedding of auth_mode_from_cyw43 (scan_msg.hpp, lines 59-66).
The C++ input is a uint8_t bitmask; we take a Nat, with the 8-bit bound
stated as a hypothesis where a claim mentions it.  The C++ truth test
`auth & 4` (nonzero) becomes `Nat.land auth 4 ≠ 0`. -/
def auth_mode_from_cyw43 (auth : Nat) : AuthMode :=
  if auth = 0 then AuthMode.OPEN
  else if auth = 1 then AuthMode.WEP
  else if Nat.land auth 4 ≠ 0 ∧ Nat.land auth 2 ≠ 0 then AuthMode.WPA_WPA2_PSK
  else if Nat.land auth 4 ≠ 0 then AuthMode.WPA2_PSK
  else if Nat.land auth 2 ≠ 0 then AuthMode.WPA_PSK
  else AuthMode.UNKNOWN

/-- Embedding of struct APInfo (scan_msg.hpp, lines 71-77).
The C++ `std::array<char, 33> ssid` is a List Nat of bytes (length 33 for
every record built by the scan callback); bssid is the 6-byte MAC. -/
structure APInfo where
  ssid : List Nat
  bssid : List Nat
  rssi : Int
  channel : Nat
  auth : AuthMode
deriving DecidableEq, Repr

/-- Default-constructed APInfo: zero-initialized arrays, auth UNKNOWN
(the member initializers in scan_msg.hpp). -/
def APInfo.fresh : APInfo :=
  { ssid := List.replicate (MAX_SSID_LEN + 1) 0
    bssid := List.replicate BSSID_LEN 0
    rssi := 0
    channel := 0
    auth := AuthMode.UNKNOWN }

/-- Embedding of struct ScanResult (scan_msg.hpp, lines 94-127).
networks models the fixed std::array<APInfo, 32>: a 32-element list whose
slot `count` is overwritten by add.  count is uint16_t; the capacity guard
keeps it ≤ 32, far below 2^16, so Nat addition is exact. -/
structure ScanResult where
  success : Bool
  error_code : Int
  count : Nat
  networks : List APInfo
deriving DecidableEq, Repr

/-- Default-constructed ScanResult (member initializers). -/
def ScanResult.fresh : ScanResult :=
  { success := false
    error_code := 0
    count := 0
    networks := List.replicate MAX_SCAN_RESULTS APInfo.fresh }

/-- Embedding of ScanResult::reset (scan_msg.hpp, lines 103-107): clears the
three scalar fields; the networks array is left untouched, as in the C++. -/
def ScanResult.reset (r : ScanResult) : ScanResult :=
  { r with success := false, error_code := 0, count := 0 }

/-- Embedding of ScanResult::add (scan_msg.hpp, lines 113-119): writes slot
`count` and increments it when below capacity, returning whether the record
was added. -/
def ScanResult.add (r : ScanResult) (ap : APInfo) : Bool × ScanResult :=
  if r.count < MAX_SCAN_RESULTS then
    (true, { r with networks := r.networks.set r.count ap, count := r.count + 1 })
  else
    (false, r)

/-- Embedding of ScanResult::is_full (scan_msg.hpp, lines 124-126). -/
def ScanResult.is_full (r : ScanResult) : Bool :=
  r.count ≥ MAX_SCAN_RESULTS

/-- C1: auth_mode_from_cyw43 is total and deterministic over [0,255] (it is a
Lean function into the 7-constructor enum), follows the documented precedence
order — mask 0 → OPEN, mask 1 → WEP, bits 4 and 2 both set → WPA_WPA2_PSK,
bit 4 alone → WPA2_PSK, bit 2 alone → WPA_PSK, otherwise UNKNOWN — and in
particular mask 6 yields WPA_WPA2_PSK. -/
theorem auth_mode_from_cyw43_precedence (a : Nat) (h : a < 256) :
    (a = 0 → auth_mode_from_cyw43 a = AuthMode.OPEN) ∧
    (a = 1 → auth_mode_from_cyw43 a = AuthMode.WEP) ∧
    (a ≠ 0 → a ≠ 1 → Nat.land a 4 ≠ 0 → Nat.land a 2 ≠ 0 →
      auth_mode_from_cyw43 a = AuthMode.WPA_WPA2_PSK) ∧
    (a ≠ 0 → a ≠ 1 → Nat.land a 4 ≠ 0 → Nat.land a 2 = 0 →
      auth_mode_from_cyw43 a = AuthMode.WPA2_PSK) ∧
    (a ≠ 0 → a ≠ 1 → Nat.land a 4 = 0 → Nat.land a 2 ≠ 0 →
      auth_mode_from_cyw43 a = AuthMode.WPA_PSK) ∧
    (a ≠ 0 → a ≠ 1 → Nat.land a 4 = 0 → Nat.land a 2 = 0 →
      auth_mode_from_cyw43 a = AuthMode.UNKNOWN) ∧
    auth_mode_from_cyw43 6 = AuthMode.WPA_WPA2_PSK := by
  refine ⟨?_, ?_, ?_, ?_, ?_, ?_, by decide⟩ <;>
    intros <;> simp_all [auth_mode_from_cyw43]

/-- Witness for C1 at the concrete mask 6. -/
theorem auth_mode_from_cyw43_precedence_witness :
    auth_mode_from_cyw43 6 = AuthMode.WPA_WPA2_PSK :=
  (auth_mode_from_cyw43_precedence 6 (by decide)).2.2.2.2.2.2

/-- Folding a sequence of add calls over a ScanResult. -/
def ScanResult.addAll (r : ScanResult) (aps : List APInfo) : ScanResult :=
  aps.foldl (fun acc ap => (acc.add ap).2) r

theorem add_snd_count_le {r : ScanResult} {ap : APInfo}
    (h : r.count ≤ MAX_SCAN_RESULTS) :
    ((r.add ap).2).count ≤ MAX_SCAN_RESULTS := by
  unfold ScanResult.add
  split
  · next hlt => simpa using hlt
  · simpa using h

theorem addAll_count_le {r : ScanResult} (aps : List APInfo)
    (h : r.count ≤ MAX_SCAN_RESULTS) :
    (r.addAll aps).count ≤ MAX_SCAN_RESULTS := by
  induction aps generalizing r with
  | nil => simpa [ScanResult.addAll] using h
  | cons a t ih =>
      simpa [ScanResult.addAll, List.foldl_cons] using
        ih (add_snd_count_le h)

/-- C2: for every sequence of add calls starting from a fresh buffer
(count = 0), count never exceeds the capacity 32; and any single add call
returns false exactly when count already equalled the capacity — equivalently,
exactly when is_full reported true — leaving the buffer unchanged then. -/
theorem scanresult_add_capacity :
    (∀ (init : ScanResult) (aps : List APInfo), init.count = 0 →
      (init.addAll aps).count ≤ MAX_SCAN_RESULTS) ∧
    (∀ (r : ScanResult) (ap : APInfo),
      (((r.add ap).1 = false) ↔ r.is_full = true) ∧
      (r.count ≤ MAX_SCAN_RESULTS →
        (((r.add ap).1 = false) ↔ r.count = MAX_SCAN_RESULTS)) ∧
      ((r.add ap).1 = false → (r.add ap).2 = r)) := by
  constructor
  · intro init aps h0
    exact addAll_count_le aps (by omega)
  · intro r ap
    refine ⟨?_, ?_, ?_⟩
    · unfold ScanResult.add ScanResult.is_full
      split
      · next hlt => simp; omega
      · next hge => simp; omega
    · intro hle
      unfold ScanResult.add
      split
      · next hlt => simp; omega
      · next hge => simp; omega
    · intro hfalse
      by_cases hlt : r.count < MAX_SCAN_RESULTS
      · simp [ScanResult.add, hlt] at hfalse
      · simp [ScanResult.add, hlt]

/-- Witness for C2: a fresh buffer after one add has count ≤ 32, and add on a
fresh buffer does not return false. -/
theorem scanresult_add_capacity_witness :
    (ScanResult.fresh.addAll [APInfo.fresh]).count ≤ MAX_SCAN_RESULTS ∧
    ((ScanResult.fresh.add APInfo.fresh).1 = false ↔
      ScanResult.fresh.count = MAX_SCAN_RESULTS) :=
  ⟨scanresult_add_capacity.1 ScanResult.fresh [APInfo.fresh] rfl,
   ((scanresult_add_capacity.2 ScanResult.fresh APInfo.fresh).2.1 (by decide))⟩

/-- C7: reset is idempotent and, for every prior state, leaves
success = false, error_code = 0 and count = 0. -/
theorem scanresult_reset_idempotent (r : ScanResult) :
    (r.reset).reset = r.reset ∧
    r.reset.success = false ∧
    r.reset.error_code = 0 ∧
    r.reset.count = 0 :=
  ⟨rfl, rfl, rfl, rfl⟩

/-- State of the LED module (led.cpp anonymous-namespace globals):
blink_timer is the FreeRTOS timer handle, modelled as the period of the
active periodic timer, none when no timer exists; led_state is the GPIO
level last written by set_led.  Timer creation is modelled as succeeding
(xTimerCreate returning a handle). -/
structure LedState where
  blink_timer : Option Nat
  led_state : Bool
deriving DecidableEq, Repr

/-- LED state at program start: no timer, LED low. -/
def LedState.init : LedState :=
  { blink_timer := none, led_state := false }

/-- Embedding of the static set_led helper (led.cpp, lines 16-19). -/
def led.set_led (s : LedState) (state : Bool) : LedState :=
  { s with led_state := state }

/-- Embedding of led::on (led.cpp, lines 29-31). -/
def led.on (s : LedState) : LedState :=
  led.set_led s true

/-- Embedding of led::off (led.cpp, lines 33-35). -/
def led.off (s : LedState) : LedState :=
  led.set_led s false

/-- Embedding of led::start_blink (led.cpp, lines 37-47): any existing timer
is stopped and deleted, a fresh periodic timer at interval_ms is created,
the LED is driven high and the timer started. -/
def led.start_blink (s : LedState) (interval_ms : Nat) : LedState :=
  { blink_timer := some interval_ms, led_state := true }

/-- Embedding of led::stop_blink (led.cpp, lines 49-56): stops and deletes
the timer when one exists, then drives the LED high (solid on). -/
def led.stop_blink (s : LedState) : LedState :=
  { blink_timer := none, led_state := true }

/-- Solid-On indicator state: LED high with no blink timer active. -/
def LedState.solid_on (s : LedState) : Bool :=
  s.blink_timer.isNone && s.led_state

/-- C8: stop_blink leaves the indicator in Solid-On (no active timer, LED
driven high) for every prior indicator state: timer running, LED off, or
blinking never started. -/
theorem stop_blink_always_solid_on (s : LedState) :
    (led.stop_blink s).solid_on = true ∧
    (led.stop_blink s).blink_timer = none ∧
    (led.stop_blink s).led_state = true :=
  ⟨rfl, rfl, rfl⟩

/-- One discovery record delivered by the radio primitive
(cyw43_ev_scan_result_t as read by scan_result_callback): ssid holds the
raw SSID bytes, its length standing for the ssid_len field; bssid, rssi,
channel and auth_mode are the remaining fields the callback copies. -/
structure Discovery where
  ssid : List Nat
  bssid : List Nat
  rssi : Int
  channel : Nat
  auth_mode : Nat
deriving DecidableEq, Repr

/-- Content of the APInfo ssid array after the callback's copy
(wifi_scanner.cpp, lines 47-49): memcpy of the first
min(ssid_len, MAX_SSID_LEN) raw bytes into the zero-initialized 33-byte
array, then a terminator written at that index — so the tail of the array
stays zero. -/
def stored_ssid (raw : List Nat) : List Nat :=
  raw.take (min raw.length MAX_SSID_LEN) ++
    List.replicate (MAX_SSID_LEN + 1 - min raw.length MAX_SSID_LEN) 0

/-- Embedding of scan_result_callback (wifi_scanner.cpp, lines 38-62).
The C++ null guards on result and env are vacuous here: the pure embedding
passes the ScanResult state and an actual Discovery by value.  The check
`ap.ssid[0] == '\0'` is the head of the stored ssid being the zero byte. -/
def scan_result_callback (scan_result : ScanResult) (result : Discovery) :
    ScanResult :=
  if scan_result.is_full then scan_result
  else if (stored_ssid result.ssid).head? = some 0 then scan_result
  else
    (scan_result.add
      { ssid := stored_ssid result.ssid
        bssid := result.bssid
        rssi := result.rssi
        channel := result.channel
        auth := auth_mode_from_cyw43 result.auth_mode }).2

theorem stored_ssid_head_cons (b : Nat) (t : List Nat) :
    (stored_ssid (b :: t)).head? = some b := by
  have hmin : min (t.length + 1) MAX_SSID_LEN = min t.length 31 + 1 := by
    simp [MAX_SSID_LEN]
    omega
  simp [stored_ssid, hmin]

/-- C5: a discovery whose display name is empty — raw SSID of length zero,
or leading zero byte, so that the copied ssid array starts with the
terminator — leaves the buffer exactly as it was: the callback returns
before calling add, whatever the other fields hold. -/
theorem callback_filters_empty_ssid (st : ScanResult) (d : Discovery)
    (h : d.ssid = [] ∨ d.ssid.head? = some 0) :
    scan_result_callback st d = st := by
  have hz : (stored_ssid d.ssid).head? = some 0 := by
    rcases hd : d.ssid with _ | ⟨b, t⟩
    · rfl
    · rw [stored_ssid_head_cons]
      rcases h with h | h
      · rw [hd] at h
        simp at h
      · rw [hd] at h
        simpa using h
  simp [scan_result_callback, hz]

/-- Blink period used during a scan (wifi_scanner.cpp, line 22). -/
def LED_BLINK_INTERVAL_MS : Nat := 50

/-- Poll period of the scan-active loop (wifi_scanner.cpp, line 23). -/
def SCAN_POLL_INTERVAL_MS : Nat := 50

/-- Behaviour of the radio primitive during one do_scan call: start_err is
the synchronous return of cyw43_wifi_scan (0 = accepted), and discoveries
are the callback invocations delivered, in order, while
cyw43_wifi_scan_active stays true.  On a start failure no callback runs. -/
structure RadioEnv where
  start_err : Int
  discoveries : List Discovery
deriving DecidableEq, Repr

/-- Embedding of do_scan (wifi_scanner.cpp, lines 67-92): reset the buffer,
start blinking, start the scan; on synchronous failure stop blinking, record
the error and return; otherwise fold the callback over the delivered
discoveries (the poll loop only sleeps), stop blinking and set success. -/
def do_scan (env : RadioEnv) (result : ScanResult) (ledSt : LedState) :
    ScanResult × LedState :=
  let r1 := result.reset
  let l1 := led.start_blink ledSt LED_BLINK_INTERVAL_MS
  if env.start_err ≠ 0 then
    ({ r1 with error_code := env.start_err }, led.stop_blink l1)
  else
    ({ env.discoveries.foldl scan_result_callback r1 with success := true },
      led.stop_blink l1)

theorem callback_success_eq (st : ScanResult) (d : Discovery) :
    (scan_result_callback st d).success = st.success := by
  unfold scan_result_callback ScanResult.add
  split_ifs <;> rfl

theorem callback_error_code_eq (st : ScanResult) (d : Discovery) :
    (scan_result_callback st d).error_code = st.error_code := by
  unfold scan_result_callback ScanResult.add
  split_ifs <;> rfl

theorem callback_count_le (st : ScanResult) (d : Discovery)
    (h : st.count ≤ MAX_SCAN_RESULTS) :
    (scan_result_callback st d).count ≤ MAX_SCAN_RESULTS := by
  unfold scan_result_callback ScanResult.add
  split_ifs with h1 h2 h3
  · exact h
  · exact h
  · simpa using h3
  · exact h

theorem foldl_callback_success (l : List Discovery) (st : ScanResult) :
    (l.foldl scan_result_callback st).success = st.success := by
  induction l generalizing st with
  | nil => rfl
  | cons d t ih => rw [List.foldl_cons, ih, callback_success_eq]

theorem foldl_callback_error_code (l : List Discovery) (st : ScanResult) :
    (l.foldl scan_result_callback st).error_code = st.error_code := by
  induction l generalizing st with
  | nil => rfl
  | cons d t ih => rw [List.foldl_cons, ih, callback_error_code_eq]

theorem foldl_callback_count_le (l : List Discovery) (st : ScanResult)
    (h : st.count ≤ MAX_SCAN_RESULTS) :
    (l.foldl scan_result_callback st).count ≤ MAX_SCAN_RESULTS := by
  induction l generalizing st with
  | nil => simpa using h
  | cons d t ih =>
      rw [List.foldl_cons]
      exact ih _ (callback_count_le st d h)

/-- C3: when the radio primitive rejects the start-scan call with a nonzero
code, do_scan records that code in error_code, leaves success false and
count 0 (no discovery is processed), and ends with the indicator Solid-On. -/
theorem do_scan_start_failure (env : RadioEnv) (r : ScanResult)
    (l : LedState) (h : env.start_err ≠ 0) :
    (do_scan env r l).1.error_code = env.start_err ∧
    (do_scan env r l).1.success = false ∧
    (do_scan env r l).1.count = 0 ∧
    ((do_scan env r l).2).solid_on = true := by
  simp [do_scan, h, ScanResult.reset, led.stop_blink, LedState.solid_on]

/-- Witness for C3: start failure with code -5 on a fresh buffer. -/
theorem do_scan_start_failure_witness :
    (do_scan ⟨-5, []⟩ ScanResult.fresh LedState.init).1.error_code = -5 ∧
    (do_scan ⟨-5, []⟩ ScanResult.fresh LedState.init).1.success = false ∧
    (do_scan ⟨-5, []⟩ ScanResult.fresh LedState.init).1.count = 0 ∧
    ((do_scan ⟨-5, []⟩ ScanResult.fresh LedState.init).2).solid_on = true :=
  do_scan_start_failure ⟨-5, []⟩ ScanResult.fresh LedState.init (by decide)

/-- C4: when the start-scan call succeeds, do_scan ends with success = true
and the indicator Solid-On; with an immediately idle scan delivering zero
discoveries the buffer also ends with count = 0. -/
theorem do_scan_success_idle (env : RadioEnv) (r : ScanResult)
    (l : LedState) (h : env.start_err = 0) :
    (do_scan env r l).1.success = true ∧
    ((do_scan env r l).2).solid_on = true ∧
    (env.discoveries = [] → (do_scan env r l).1.count = 0) := by
  refine ⟨?_, ?_, ?_⟩
  · simp [do_scan, h]
  · simp [do_scan, h, led.stop_blink, LedState.solid_on]
  · intro he
    simp [do_scan, h, he, ScanResult.reset]

/-- Witness for C4: immediate idle with zero discoveries. -/
theorem do_scan_success_idle_witness :
    (do_scan ⟨0, []⟩ ScanResult.fresh LedState.init).1.success = true ∧
    ((do_scan ⟨0, []⟩ ScanResult.fresh LedState.init).2).solid_on = true ∧
    ((⟨0, []⟩ : RadioEnv).discoveries = [] →
      (do_scan ⟨0, []⟩ ScanResult.fresh LedState.init).1.count = 0) :=
  do_scan_success_idle ⟨0, []⟩ ScanResult.fresh LedState.init rfl

/-- A concrete well-formed discovery used in overflow scenarios. -/
def sample_discovery : Discovery :=
  { ssid := [65], bssid := [1, 2, 3, 4, 5, 6], rssi := -50,
    channel := 6, auth_mode := 4 }

set_option maxRecDepth 8000 in
/-- C6: with a successful start, however many discoveries arrive, count never
exceeds the capacity 32, no error is recorded (error_code stays 0) and the
scan completes with success = true; concretely, 40 discoveries in one cycle
cap the buffer at exactly 32. -/
theorem do_scan_overflow_capped (env : RadioEnv) (r : ScanResult)
    (l : LedState) (h : env.start_err = 0) :
    (do_scan env r l).1.count ≤ MAX_SCAN_RESULTS ∧
    (do_scan env r l).1.error_code = 0 ∧
    (do_scan env r l).1.success = true ∧
    (do_scan ⟨0, List.replicate 40 sample_discovery⟩ ScanResult.fresh
      LedState.init).1.count = MAX_SCAN_RESULTS := by
  refine ⟨?_, ?_, ?_, by decide⟩
  · have := foldl_callback_count_le env.discoveries r.reset (by simp [ScanResult.reset])
    simpa [do_scan, h] using this
  · have := foldl_callback_error_code env.discoveries r.reset
    simp [ScanResult.reset] at this
    simpa [do_scan, h] using this
  · simp [do_scan, h]

/-- Witness for C6 at the 40-discovery environment. -/
theorem do_scan_overflow_capped_witness :
    (do_scan ⟨0, List.replicate 40 sample_discovery⟩ ScanResult.fresh
      LedState.init).1.count ≤ MAX_SCAN_RESULTS ∧
    (do_scan ⟨0, List.replicate 40 sample_discovery⟩ ScanResult.fresh
      LedState.init).1.error_code = 0 ∧
    (do_scan ⟨0, List.replicate 40 sample_discovery⟩ ScanResult.fresh
      LedState.init).1.success = true ∧
    (do_scan ⟨0, List.replicate 40 sample_discovery⟩ ScanResult.fresh
      LedState.init).1.count = MAX_SCAN_RESULTS :=
  do_scan_overflow_capped ⟨0, List.replicate 40 sample_discovery⟩
    ScanResult.fresh LedState.init rfl

/-- Witness for C5: an empty-name discovery with nonzero BSSID, RSSI,
channel and auth mask leaves a fresh buffer unchanged. -/
theorem callback_filters_empty_ssid_witness :
    scan_result_callback ScanResult.fresh
      { ssid := [], bssid := [1, 2, 3, 4, 5, 6], rssi := -42,
        channel := 11, auth_mode := 6 } = ScanResult.fresh :=
  callback_filters_empty_ssid ScanResult.fresh
    { ssid := [], bssid := [1, 2, 3, 4, 5, 6], rssi := -42,
      channel := 11, auth_mode := 6 } (Or.inl rfl)

/-- C10: on a non-full buffer, a discovery whose raw name is nonempty (first
byte nonzero) is stored — written into slot count, which is incremented —
with its ssid array holding the first min(raw length, 32) raw bytes followed
by a zero terminator at exactly that index, inside a 33-byte array; so a
name longer than 32 bytes is truncated to its first 32 bytes, not dropped. -/
theorem callback_stores_truncated_ssid (st : ScanResult) (d : Discovery)
    (hfull : st.is_full = false) (hne : d.ssid ≠ [])
    (hz : d.ssid.head? ≠ some 0) :
    scan_result_callback st d =
      { st with
        networks := st.networks.set st.count
          { ssid := stored_ssid d.ssid, bssid := d.bssid, rssi := d.rssi,
            channel := d.channel, auth := auth_mode_from_cyw43 d.auth_mode }
        count := st.count + 1 } ∧
    (stored_ssid d.ssid).take (min d.ssid.length MAX_SSID_LEN) =
      d.ssid.take (min d.ssid.length MAX_SSID_LEN) ∧
    (stored_ssid d.ssid)[min d.ssid.length MAX_SSID_LEN]? = some 0 ∧
    (stored_ssid d.ssid).length = MAX_SSID_LEN + 1 := by
  have hlen : (d.ssid.take (min d.ssid.length MAX_SSID_LEN)).length =
      min d.ssid.length MAX_SSID_LEN := by
    rw [List.length_take]
    omega
  have hk : min d.ssid.length MAX_SSID_LEN ≤ MAX_SSID_LEN :=
    Nat.min_le_right _ _
  refine ⟨?_, ?_, ?_, ?_⟩
  · have hhead : ¬((stored_ssid d.ssid).head? = some 0) := by
      cases hd : d.ssid with
      | nil => exact absurd hd hne
      | cons b t =>
          rw [stored_ssid_head_cons]
          intro hc
          apply hz
          rw [hd, List.head?_cons]
          exact hc
    have hlt : st.count < MAX_SCAN_RESULTS := by
      simpa [ScanResult.is_full] using hfull
    simp [scan_result_callback, hfull, hhead, ScanResult.add, hlt]
  · exact List.take_left' hlen
  · rw [stored_ssid, List.getElem?_append_right (le_of_eq hlen),
      List.getElem?_replicate]
    rw [hlen]
    simp
  · rw [stored_ssid, List.length_append, hlen, List.length_replicate]
    omega

/-- Witness for C10 at a 40-byte raw SSID on a fresh buffer. -/
theorem callback_stores_truncated_ssid_witness :
    (stored_ssid (List.replicate 40 65)).take
        (min (List.replicate 40 (65 : Nat)).length MAX_SSID_LEN) =
      (List.replicate 40 65).take
        (min (List.replicate 40 (65 : Nat)).length MAX_SSID_LEN) ∧
    (stored_ssid (List.replicate 40 65))[min
        (List.replicate 40 (65 : Nat)).length MAX_SSID_LEN]? = some 0 :=
  ⟨(callback_stores_truncated_ssid ScanResult.fresh
      ⟨List.replicate 40 65, [1, 2, 3, 4, 5, 6], -50, 6, 4⟩
      (by decide) (by decide) (by decide)).2.1,
   (callback_stores_truncated_ssid ScanResult.fresh
      ⟨List.replicate 40 65, [1, 2, 3, 4, 5, 6], -50, 6, 4⟩
      (by decide) (by decide) (by decide)).2.2.1⟩

/-- State of the scan coordinator (wifi_scanner.cpp anonymous-namespace
globals): the two binary semaphores created by start_scanner_task, each
none while its handle is still nullptr and some b once created with b
pending signals, and the shared result pointer g_result_ptr, an abstract
address with none standing for nullptr. -/
structure CoordState where
  request_sem : Option Bool
  complete_sem : Option Bool
  result_ptr : Option Nat
deriving DecidableEq, Repr

/-- Embedding of wifi::request_scan (wifi_scanner.cpp, lines 158-167):
reject null result pointer or missing semaphores without any effect;
otherwise store the pointer, give the request semaphore and block on the
completion semaphore up to timeout_ms.  Whether that wait succeeds depends
on the worker's scheduling, so it enters as the oracle resp_arrived,
standing for xSemaphoreTake(g_complete_sem, timeout) == pdTRUE, which is
also the returned value; a successful take consumes the pending signal. -/
def request_scan (st : CoordState) (result : Option Nat) (timeout_ms : Nat)
    (resp_arrived : Bool) : Bool × CoordState :=
  if result = none ∨ st.request_sem = none ∨ st.complete_sem = none then
    (false, st)
  else
    (resp_arrived,
      { st with
        result_ptr := result
        request_sem := some true
        complete_sem := if resp_arrived then some false else st.complete_sem })

/-- C9: request_scan returns false and leaves the whole coordinator state
untouched (no request signal raised, pointer not stored) whenever the
result pointer is null or either semaphore has not been created; with a
non-null pointer and both semaphores created it stores the pointer, raises
the request signal and returns the outcome of the timed wait. -/
theorem request_scan_guard_spec :
    (∀ (st : CoordState) (t : Nat) (resp : Bool),
      request_scan st none t resp = (false, st)) ∧
    (∀ (st : CoordState) (res : Option Nat) (t : Nat) (resp : Bool),
      st.request_sem = none → request_scan st res t resp = (false, st)) ∧
    (∀ (st : CoordState) (res : Option Nat) (t : Nat) (resp : Bool),
      st.complete_sem = none → request_scan st res t resp = (false, st)) ∧
    (∀ (st : CoordState) (r t : Nat) (resp a b : Bool),
      st.request_sem = some a → st.complete_sem = some b →
      (request_scan st (some r) t resp).1 = resp ∧
      (request_scan st (some r) t resp).2.result_ptr = some r ∧
      (request_scan st (some r) t resp).2.request_sem = some true) := by
  refine ⟨?_, ?_, ?_, ?_⟩
  · intro st t resp
    simp [request_scan]
  · intro st res t resp h
    simp [request_scan, h]
  · intro st res t resp h
    simp [request_scan, h]
  · intro st r t resp a b ha hb
    refine ⟨?_, ?_, ?_⟩ <;> simp [request_scan, ha, hb]

/-- Witness for C9: uninitialized semaphores reject the request untouched;
initialized ones accept it. -/
theorem request_scan_guard_spec_witness :
    request_scan ⟨none, none, none⟩ (some 1) 30000 true =
      (false, ⟨none, none, none⟩) ∧
    (request_scan ⟨some false, some false, none⟩ (some 7) 30000 true).1 =
      true ∧
    (request_scan ⟨some false, some false, none⟩ (some 7) 30000
      true).2.result_ptr = some 7 ∧
    (request_scan ⟨some false, some false, none⟩ (some 7) 30000
      true).2.request_sem = some true :=
  ⟨request_scan_guard_spec.2.1 ⟨none, none, none⟩ (some 1) 30000 true rfl,
   request_scan_guard_spec.2.2.2 ⟨some false, some false, none⟩ 7 30000
     true false false rfl rfl⟩
